import Mathlib

/-! # Verification of the StegOps State Engine

Shallow embedding of `scripts/state_engine.py` (the most complete variant of
the engine) and of the workspace-link checks of
`scripts/validate_state_outputs.py`, together with proofs of the claimed
properties of the transition function `compute_state`.

Modelling conventions:
* JSON dictionaries become typed records; a key that may be absent becomes an
  `Option` field (absent = `none`); Python's `or`-falsiness on strings is
  modelled explicitly (empty string behaves like an absent value exactly where
  the source uses `or`).
* Python regular expressions become executable character-list parsers with
  the same language; `\w` is modelled over ASCII word characters (the inputs
  of interest are ASCII).
* `sorted(set(xs))` becomes insertion sort over deduplicated lists with the
  codepoint-lexicographic order Python uses for `str`.
* SHA-256 content hashing of canonically serialized records
  (`canonical_hash` in the source) is modelled by record equality: the
  canonical serialization is injective on the modelled fields, and hash
  equality of distinct serializations is not a behaviour of the program.
-/

namespace StegOps

/-- Embeds `STATE_ORDER` from `state_engine.py`: the lifecycle lattice, rank ascending. -/
def STATE_ORDER : List String :=
  ["new","replied","qualified","sow_generated","accepted","invoice_generated",
   "payment_claimed","verify_payment","payment_verified",
   "deliverables_ready","deliverables_pushed",
   "closed_no_response","closed"]

/-- Embeds `state_rank` from `state_engine.py`, i.e. `STATE_RANK.get(s, 0)` — the index of
`s` in `STATE_ORDER`, defaulting to 0 for unknown states.  Written as a direct
match for ease of reasoning; `state_rank_spec` below ties it to `STATE_ORDER`. -/
def state_rank (s : String) : Nat :=
  match s with
  | "new" => 0
  | "replied" => 1
  | "qualified" => 2
  | "sow_generated" => 3
  | "accepted" => 4
  | "invoice_generated" => 5
  | "payment_claimed" => 6
  | "verify_payment" => 7
  | "payment_verified" => 8
  | "deliverables_ready" => 9
  | "deliverables_pushed" => 10
  | "closed_no_response" => 11
  | "closed" => 12
  | _ => 0

/-- Embeds `max_state` from `state_engine.py`: `a if state_rank(a) >= state_rank(b) else b`. -/
def max_state (a b : String) : String :=
  if state_rank b ≤ state_rank a then a else b

/-- ASCII word character, modelling `\w` of the source's regexes on the ASCII
inputs the engine receives. -/
def isWordChar (ch : Char) : Bool :=
  ch.isAlphanum || ch == '_'

/-- Whitespace stripped by Python's `str.strip()` (ASCII range). -/
def isSpaceChar (c : Char) : Bool :=
  c == ' ' || c == '\t' || c == '\n' || c == '\x0b' || c == '\x0c' || c == '\r'

/-- Python `str.strip()` (kernel-reducible model over the char list). -/
def trimStr (s : String) : String :=
  String.mk (((s.toList.dropWhile isSpaceChar).reverse.dropWhile isSpaceChar).reverse)

/-- Python `str.lower()` (kernel-reducible model; ASCII case mapping). -/
def toLowerStr (s : String) : String :=
  String.mk (s.toList.map Char.toLower)

/-- Python `str.upper()` (kernel-reducible model; ASCII case mapping). -/
def toUpperStr (s : String) : String :=
  String.mk (s.toList.map Char.toUpper)

/-- Python `str.endswith` (kernel-reducible model). -/
def endsWithStr (s suffx : String) : Bool :=
  go suffx.toList.reverse s.toList.reverse
where
  go : List Char → List Char → Bool
    | [], _ => true
    | _ :: _, [] => false
    | p :: ps, c :: cs => p == c && go ps cs

/-- Drop `p` from the front of `s`; `none` when `p` is not a prefix. -/
def dropPrefixChars : List Char → List Char → Option (List Char)
  | [], s => some s
  | _ :: _, [] => none
  | p :: ps, c :: cs => if p == c then dropPrefixChars ps cs else none

/-- Embeds `re.match(r"^(alt1|alt2|...)\b", c)`: some alternative is a prefix of `c`
and is followed by a non-word character or the end of the string.  (Every
alternative used by the engine ends in a word character, so `\b` reduces to
exactly this condition.) -/
def matchPrefixWord (alts : List String) (c : String) : Bool :=
  alts.any fun a =>
    match dropPrefixChars a.toList c.toList with
    | some [] => true
    | some (ch :: _) => !isWordChar ch
    | none => false

/-- Embeds `parse_comment_intents` from `state_engine.py`: `(yes, accept, paid,
verify)` leading-phrase intents of the trimmed lower-cased comment. -/
def parse_comment_intents (body : String) : Bool × Bool × Bool × Bool :=
  let c := toLowerStr (trimStr body)
  (matchPrefixWord ["yes", "y", "sure", "ok", "let’s do it", "lets do it"] c,
   matchPrefixWord ["accept", "accepted", "i accept"] c,
   matchPrefixWord ["paid", "payment sent", "sent payment"] c,
   matchPrefixWord ["verify payment"] c)

/-- Embeds `is_authorized_assoc` from `state_engine.py`, taking the possibly-absent
`author_association` (`(a or "").upper() in {"OWNER","MEMBER","COLLABORATOR"}`). -/
def is_authorized_assoc (a : Option String) : Bool :=
  let u := toUpperStr (a.getD "")
  u == "OWNER" || u == "MEMBER" || u == "COLLABORATOR"

/-- Substring containment (`pat in s` for Python strings). -/
def containsSub (s pat : String) : Bool :=
  go s.toList pat.toList
where
  go : List Char → List Char → Bool
    | ss, ps =>
      match dropPrefixChars ps ss with
      | some _ => true
      | none =>
        match ss with
        | [] => false
        | _ :: t => go t ps

/-- Embeds `parse_service_from_issue_body` from `state_engine.py`. -/
def parse_service_from_issue_body (body : String) : Option String :=
  let b := toLowerStr body
  if containsSub b "monthly ops support" then some "monthly"
  else if containsSub b "one-time ai ops audit" then some "audit"
  else none

/-- Embeds `choose_amount_default` from `state_engine.py`. -/
def choose_amount_default (service : String) : String :=
  if service == "monthly" then "$99 / month" else "$2,500 USD"

/-- Embeds `IssueContext` from `state_engine.py` (already-normalized event). -/
structure IssueContext where
  number : Int
  author : String
  title : String
  url : String
  state : String
  labels : List String
  body : String
  comment : Option String
  assoc : Option String
  deriving Repr, DecidableEq

/-- The persisted `state.json` record: the dictionary built by `compute_state`
(and read back as `prev`).  Keys that may be absent in a previous record are
`Option`; the two list-valued keys are always materialized by the engine. -/
structure StateRecord where
  schema_version : Option Int
  issue : Option Int
  customer : Option String
  issue_url : Option String
  issue_title : Option String
  service : Option String
  labels : List String
  state : Option String
  updated_utc : Option String
  timestamps : List (String × String)
  pricing_suggested : Option String
  private_workspace : Option String
  reasons : List String
  deriving Repr, DecidableEq

/-- The empty previous record (`prev = {}` on a first run). -/
def emptyRecord : StateRecord :=
  { schema_version := none, issue := none, customer := none, issue_url := none,
    issue_title := none, service := none, labels := [], state := none,
    updated_utc := none, timestamps := [], pricing_suggested := none,
    private_workspace := none, reasons := [] }

/-- Embeds `prev_state = (prev.get("state") or "new") if prev else "new"`: how the
engine reads the state of a persisted record. -/
def stateOf (r : StateRecord) : String :=
  match r.state with
  | some s => if s == "" then "new" else s
  | none => "new"

/-- Embeds `prev.get("service")` under Python `or`-falsiness (empty string = absent). -/
def prevService (r : StateRecord) : Option String :=
  match r.service with
  | some s => if s == "" then none else some s
  | none => none

/-- Embeds the `if ctx.comment:` truthiness test — comment present and non-empty. -/
def hasComment (ctx : IssueContext) : Bool :=
  match ctx.comment with
  | some c => !(c == "")
  | none => false

/-- Intents of the event: `parse_comment_intents(ctx.comment)` when the
comment is truthy, all-false otherwise. -/
def intentsOf (ctx : IssueContext) : Bool × Bool × Bool × Bool :=
  match ctx.comment with
  | some c => if c == "" then (false, false, false, false) else parse_comment_intents c
  | none => (false, false, false, false)

/-- The `yes` intent of the event. -/
def yesOf (ctx : IssueContext) : Bool := (intentsOf ctx).1

/-- The `accept` intent of the event. -/
def acceptOf (ctx : IssueContext) : Bool := (intentsOf ctx).2.1

/-- The `paid` intent of the event. -/
def paidOf (ctx : IssueContext) : Bool := (intentsOf ctx).2.2.1

/-- The `verify_intent` of the event. -/
def verifyIntentOf (ctx : IssueContext) : Bool := (intentsOf ctx).2.2.2

/-- Embeds `verify_authorized` from `compute_state` (state_engine.py:237): all three
factors of the two-factor verify-payment gate. -/
def verify_authorized (ctx : IssueContext) : Bool :=
  verifyIntentOf ctx && is_authorized_assoc ctx.assoc && ctx.labels.contains "verify-payment"

/-- One `observed = max_state(observed, target); reasons.append(reason)` step,
guarded by its condition. -/
def foldStep (cond : Bool) (target reason : String) (acc : String × List String) :
    String × List String :=
  if cond then (max_state acc.1 target, acc.2 ++ [reason]) else acc

/-- A guarded double fold (`payment_claimed`+`verify_payment`, and
`payment_verified`+`deliverables_ready`), one reason appended. -/
def foldStep2 (cond : Bool) (t1 t2 reason : String) (acc : String × List String) :
    String × List String :=
  if cond then (max_state (max_state acc.1 t1) t2, acc.2 ++ [reason]) else acc

/-- The "observed" fold of `compute_state` (state_engine.py:206-245), before
the explicit close handling: the observed state together with the reasons
accumulated so far (`comment_detected` and the `observed_*` tags). -/
def observedFold (ctx : IssueContext) : String × List String :=
  let acc := ("new", if hasComment ctx then ["comment_detected"] else [])
  let acc := foldStep (hasComment ctx) "replied" "observed_replied" acc
  let acc := foldStep (ctx.labels.contains "qualified" || yesOf ctx)
    "qualified" "observed_qualified" acc
  let acc := foldStep (ctx.labels.contains "sow-generated")
    "sow_generated" "observed_sow_generated" acc
  let acc := foldStep (acceptOf ctx) "accepted" "observed_accepted" acc
  let acc := foldStep (ctx.labels.contains "invoice-generated")
    "invoice_generated" "observed_invoice_generated" acc
  let acc := foldStep2 (paidOf ctx || ctx.labels.contains "payment-claimed")
    "payment_claimed" "verify_payment" "observed_payment_claimed" acc
  let acc := foldStep2 (verify_authorized ctx)
    "payment_verified" "deliverables_ready" "observed_payment_verified_two_factor" acc
  let acc := foldStep (ctx.labels.contains "deliverables-pushed")
    "deliverables_pushed" "observed_deliverables_pushed" acc
  acc

/-- Explicit close handling of `compute_state` (state_engine.py:248-257). -/
def closeFold (ctx : IssueContext) (prev_state : String) (acc : String × List String) :
    String × List String :=
  if toLowerStr ctx.state == "closed" then
    if state_rank prev_state ≤ state_rank "qualified"
        && state_rank acc.1 ≤ state_rank "qualified" then
      (max_state acc.1 "closed_no_response", acc.2 ++ ["observed_closed_no_response"])
    else
      (max_state acc.1 "closed", acc.2 ++ ["observed_closed"])
  else acc

/-- Observed state and observation reasons after close handling. -/
def observedClose (ctx : IssueContext) (prev : StateRecord) : String × List String :=
  closeFold ctx (stateOf prev) (observedFold ctx)

/-- Embeds `out["state"] = max_state(prev_state, observed)` (state_engine.py:259). -/
def finalState (ctx : IssueContext) (prev : StateRecord) : String :=
  max_state (stateOf prev) (observedClose ctx prev).1

/-- Service resolution with its reason tags (state_engine.py:179-186):
labels beat the previously stored value, which beats body inference,
defaulting to `"audit"`; the `audit` label is checked after `monthly`. -/
def resolveService (ctx : IssueContext) (prev : StateRecord) : String × List String :=
  let base :=
    match prevService prev with
    | some s => s
    | none =>
      match parse_service_from_issue_body ctx.body with
      | some s => s
      | none => "audit"
  let acc := if ctx.labels.contains "monthly"
    then ("monthly", ["service_labeled_monthly"]) else (base, ([] : List String))
  if ctx.labels.contains "audit" then ("audit", acc.2 ++ ["service_labeled_audit"]) else acc

/-- The resolved service of the run. -/
def serviceOf (ctx : IssueContext) (prev : StateRecord) : String :=
  (resolveService ctx prev).1

/-- Embeds `mark(k, cond)` from `compute_state` (state_engine.py:261-263): write-once
timestamp recording into the `timestamps` mapping. -/
def mark (now k : String) (cond : Bool) (ts : List (String × String)) :
    List (String × String) :=
  if cond && (ts.lookup k).isNone then ts ++ [(k, now)] else ts

/-- The `mark` calls of `compute_state` (state_engine.py:265-270), in source
order. -/
def markAll (now : String) (ctx : IssueContext) (ts : List (String × String)) :
    List (String × String) :=
  let ts := mark now "qualified" (ctx.labels.contains "qualified" || yesOf ctx) ts
  let ts := mark now "accepted" (acceptOf ctx) ts
  let ts := mark now "invoice_generated" (ctx.labels.contains "invoice-generated") ts
  let ts := mark now "payment_claimed" (paidOf ctx || ctx.labels.contains "payment-claimed") ts
  let ts := mark now "payment_verified" (verify_authorized ctx) ts
  let ts := mark now "deliverables_pushed" (ctx.labels.contains "deliverables-pushed") ts
  ts

/-- Codepoint-lexicographic string order (Python `sorted` on `str`). -/
def strLe (a b : String) : Bool :=
  go a.toList b.toList
where
  go : List Char → List Char → Bool
    | [], _ => true
    | _ :: _, [] => false
    | a :: as, b :: bs =>
      if a.toNat < b.toNat then true
      else if b.toNat < a.toNat then false
      else go as bs

/-- Insert into a sorted list of strings. -/
def insertStr (s : String) : List String → List String
  | [] => [s]
  | h :: t => if strLe s h then s :: h :: t else h :: insertStr s t

/-- Insertion sort by `strLe`. -/
def sortStrings : List String → List String
  | [] => []
  | h :: t => insertStr h (sortStrings t)

/-- Embeds `sorted(set(reasons))` (state_engine.py:283). -/
def sortedSet (l : List String) : List String :=
  sortStrings l.dedup

/-- The fixed workspace link
(`https://github.com/StegVerse-Labs/StegOps-Deliverables/tree/main/clients/issue-<n>`,
state_engine.py:276). -/
def workspace_url (n : Int) : String :=
  "https://github.com/StegVerse-Labs/StegOps-Deliverables/tree/main/clients/issue-" ++ toString n

/-- Embeds `compute_state` from `state_engine.py` (lines 174-285), with the run time
`now` made explicit.  Every field of the output record is recomputed except
`timestamps`, which is carried over from `prev` and extended write-once by
`markAll`. -/
def compute_state (ctx : IssueContext) (prev : StateRecord) (now : String) : StateRecord :=
  { schema_version := some 1
    issue := some ctx.number
    customer := some ctx.author
    issue_url := some ctx.url
    issue_title := some ctx.title
    service := some (serviceOf ctx prev)
    labels := ctx.labels
    state := some (finalState ctx prev)
    updated_utc := some now
    timestamps := markAll now ctx prev.timestamps
    pricing_suggested := some (choose_amount_default (serviceOf ctx prev))
    private_workspace :=
      if finalState ctx prev == "deliverables_ready"
          || finalState ctx prev == "deliverables_pushed"
      then some (workspace_url ctx.number) else none
    reasons := sortedSet ((resolveService ctx prev).2 ++ (observedClose ctx prev).2) }

/-- The idempotent-write decision of `main` (state_engine.py:339-344): files
are (re)written iff the canonical content hash of the newly computed record
differs from the persisted one's.  Canonical hashing is modelled by record
equality (the canonical serialization is injective on the modelled record). -/
def writes_files (prev nxt : StateRecord) : Bool :=
  !(prev == nxt)

/-- Repeated application of the engine to a sequence of (event, run time)
pairs, each run reading the record persisted by the previous one. -/
def runEngine (prev : StateRecord) : List (IssueContext × String) → StateRecord
  | [] => prev
  | (ctx, now) :: rest => runEngine (compute_state ctx prev now) rest

/-! ## Output validator (`scripts/validate_state_outputs.py`) -/

/-- Embeds `ISSUE_URL_RE` from `validate_state_outputs.py`:
`^https://github\.com/[^/]+/[^/]+/issues/\d+/?$`. -/
def matchIssueUrl (s : String) : Bool :=
  match dropPrefixChars "https://github.com/".toList s.toList with
  | none => false
  | some r0 =>
    let seg1 := r0.takeWhile (fun c => !(c == '/'))
    let r1 := r0.dropWhile (fun c => !(c == '/'))
    if seg1.isEmpty then false else
    match r1 with
    | '/' :: r2 =>
      let seg2 := r2.takeWhile (fun c => !(c == '/'))
      let r3 := r2.dropWhile (fun c => !(c == '/'))
      if seg2.isEmpty then false else
      match dropPrefixChars "/issues/".toList r3 with
      | none => false
      | some r4 =>
        let ds := r4.takeWhile Char.isDigit
        let r5 := r4.dropWhile Char.isDigit
        !ds.isEmpty && (r5 == [] || r5 == ['/'])
    | _ => false

/-- Embeds `WORKSPACE_RE` from `validate_state_outputs.py`:
`^https://github\.com/StegVerse-Labs/StegOps-Deliverables/tree/main/clients/issue-\d+/?$`
— note the digits are arbitrary, not tied to any particular issue number. -/
def matchWorkspaceUrl (s : String) : Bool :=
  match dropPrefixChars
      "https://github.com/StegVerse-Labs/StegOps-Deliverables/tree/main/clients/issue-".toList
      s.toList with
  | none => false
  | some r =>
    let ds := r.takeWhile Char.isDigit
    let r2 := r.dropWhile Char.isDigit
    !ds.isEmpty && (r2 == [] || r2 == ['/'])

/-- Embeds `validate_state_json` from `validate_state_outputs.py` (lines 113-172),
as the acceptance predicate over a typed record: `true` means every check
passed, `false` means some `fail(...)` fired.  In the typed embedding the two
list-valued required keys are always present, and `int(...)` coercions are
identities. -/
def validate_state_json (issue_num : Int) (d : StateRecord) : Bool :=
  -- REQUIRED_KEYS presence
  d.schema_version.isSome && d.issue.isSome && d.customer.isSome
    && d.state.isSome && d.updated_utc.isSome && d.service.isSome &&
  (d.schema_version == some 1) &&
  (d.issue == some issue_num) &&
  (let st := d.state.getD ""     -- str(data.get("state") or "")
   let svc := d.service.getD ""
   let upd := d.updated_utc.getD ""
   STATE_ORDER.contains st &&
   (svc == "monthly" || svc == "audit") &&
   (containsSub upd "T" && endsWithStr upd "Z") &&
   (match d.issue_url with
    | some u => if trimStr u == "" then true else matchIssueUrl (trimStr u)
    | none => true) &&
   d.reasons.all (fun r => !(trimStr r == "")) &&
   -- workspace link rule
   (if st == "deliverables_ready" || st == "deliverables_pushed" then
      match d.private_workspace with
      | some pw => matchWorkspaceUrl (trimStr pw)
      | none => false
    else d.private_workspace == none) &&
   -- two-factor defence: verified-or-beyond requires the verify-payment label
   (if st == "payment_verified" || st == "deliverables_ready"
       || st == "deliverables_pushed"
    then d.labels.contains "verify-payment" else true))

/-! ## Helper lemmas -/

/-- The explicit-match `state_rank` agrees with the index in `STATE_ORDER`
(the source builds `STATE_RANK` by enumerating `STATE_ORDER`). -/
theorem state_rank_spec : ∀ i : Fin STATE_ORDER.length,
    state_rank (STATE_ORDER.get i) = i.val := by decide

theorem state_rank_le_twelve (s : String) : state_rank s ≤ 12 := by
  unfold state_rank; split <;> omega

theorem rank_max_state (a b : String) :
    state_rank (max_state a b) = max (state_rank a) (state_rank b) := by
  unfold max_state; split <;> omega

theorem max_state_left {a b : String} (h : state_rank b ≤ state_rank a) :
    max_state a b = a := by
  unfold max_state; rw [if_pos h]

theorem max_state_right {a b : String} (h : ¬ state_rank b ≤ state_rank a) :
    max_state a b = b := by
  unfold max_state; rw [if_neg h]

theorem foldStep_false (t r : String) (acc : String × List String) :
    foldStep false t r acc = acc := rfl

theorem foldStep2_false (t1 t2 r : String) (acc : String × List String) :
    foldStep2 false t1 t2 r acc = acc := rfl

theorem foldStep_rank_le {c : Bool} {t r : String} {acc : String × List String} {n : Nat}
    (h : state_rank acc.1 ≤ n) (ht : state_rank t ≤ n) :
    state_rank (foldStep c t r acc).1 ≤ n := by
  cases c
  · simpa [foldStep] using h
  · simp only [foldStep, if_pos]
    rw [rank_max_state]
    omega

theorem foldStep2_rank_le {c : Bool} {t1 t2 r : String} {acc : String × List String} {n : Nat}
    (h : state_rank acc.1 ≤ n) (h1 : state_rank t1 ≤ n) (h2 : state_rank t2 ≤ n) :
    state_rank (foldStep2 c t1 t2 r acc).1 ≤ n := by
  cases c
  · simpa [foldStep2] using h
  · simp only [foldStep2, if_pos]
    rw [rank_max_state, rank_max_state]
    omega

theorem mem_foldStep_snd {x : String} {c : Bool} {t r : String} {acc : String × List String} :
    x ∈ (foldStep c t r acc).2 ↔ x ∈ acc.2 ∨ (c = true ∧ x = r) := by
  cases c <;> simp [foldStep]

theorem mem_foldStep2_snd {x : String} {c : Bool} {t1 t2 r : String}
    {acc : String × List String} :
    x ∈ (foldStep2 c t1 t2 r acc).2 ↔ x ∈ acc.2 ∨ (c = true ∧ x = r) := by
  cases c <;> simp [foldStep2]

theorem mem_ite_list {x : String} {b : Bool} {l : List String} :
    x ∈ (if b then l else ([] : List String)) ↔ b = true ∧ x ∈ l := by
  cases b <;> simp

/-- Rank of the pre-close observed state is at most `deliverables_pushed`. -/
theorem observedFold_rank_le_ten (ctx : IssueContext) :
    state_rank (observedFold ctx).1 ≤ 10 := by
  simp only [observedFold]
  refine foldStep_rank_le
    (foldStep2_rank_le
      (foldStep2_rank_le
        (foldStep_rank_le
          (foldStep_rank_le
            (foldStep_rank_le
              (foldStep_rank_le
                (foldStep_rank_le ?_ (by decide))
                (by decide))
              (by decide))
            (by decide))
          (by decide))
        (by decide) (by decide))
      (by decide) (by decide))
    (by decide)
  exact show state_rank "new" ≤ 10 by decide

/-- Without the full two-factor authorization and without a
`deliverables-pushed` label, the pre-close observed state never ranks above
`verify_payment`. -/
theorem observedFold_rank_le_seven (ctx : IssueContext)
    (hva : verify_authorized ctx = false)
    (hdp : ctx.labels.contains "deliverables-pushed" = false) :
    state_rank (observedFold ctx).1 ≤ 7 := by
  simp only [observedFold]
  rw [hva, hdp, foldStep_false, foldStep2_false]
  refine foldStep2_rank_le
    (foldStep_rank_le
      (foldStep_rank_le
        (foldStep_rank_le
          (foldStep_rank_le
            (foldStep_rank_le ?_ (by decide))
            (by decide))
          (by decide))
        (by decide))
      (by decide))
    (by decide) (by decide)
  exact show state_rank "new" ≤ 7 by decide

/-- The two-factor reason tag is observed exactly when all three factors hold. -/
theorem pv_reason_mem_observedFold (ctx : IssueContext) :
    ("observed_payment_verified_two_factor" ∈ (observedFold ctx).2)
      ↔ verify_authorized ctx = true := by
  simp [observedFold, mem_foldStep_snd, mem_foldStep2_snd, mem_ite_list]

/-- Close handling never adds or removes the two-factor reason tag. -/
theorem pv_reason_mem_closeFold (ctx : IssueContext) (ps : String)
    (acc : String × List String) :
    ("observed_payment_verified_two_factor" ∈ (closeFold ctx ps acc).2)
      ↔ "observed_payment_verified_two_factor" ∈ acc.2 := by
  unfold closeFold
  split
  · split <;> simp
  · exact Iff.rfl

/-- Service resolution only produces the two service reason tags. -/
theorem pv_reason_not_mem_resolveService (ctx : IssueContext) (prev : StateRecord) :
    "observed_payment_verified_two_factor" ∉ (resolveService ctx prev).2 := by
  unfold resolveService
  repeat' split
  all_goals simp

theorem mem_insertStr {x s : String} {l : List String} :
    x ∈ insertStr s l ↔ x = s ∨ x ∈ l := by
  induction l with
  | nil => simp [insertStr]
  | cons h t ih =>
    simp only [insertStr]
    split
    · simp
    · simp [ih]
      tauto

theorem mem_sortStrings {x : String} {l : List String} :
    x ∈ sortStrings l ↔ x ∈ l := by
  induction l with
  | nil => simp [sortStrings]
  | cons h t ih => simp [sortStrings, mem_insertStr, ih]

theorem mem_sortedSet {x : String} {l : List String} :
    x ∈ sortedSet l ↔ x ∈ l := by
  simp [sortedSet, mem_sortStrings]

theorem lookup_append_some {l₁ l₂ : List (String × String)} {k v : String}
    (h : l₁.lookup k = some v) : (l₁ ++ l₂).lookup k = some v := by
  induction l₁ with
  | nil => simp [List.lookup] at h
  | cons p t ih =>
    obtain ⟨a, b⟩ := p
    cases hk : (k == a) <;>
      simp only [List.cons_append, List.lookup, hk] at h ⊢
    · exact ih h
    · exact h

theorem lookup_mark_some {ts : List (String × String)} {k v : String}
    (now k' : String) (c : Bool) (h : ts.lookup k = some v) :
    (mark now k' c ts).lookup k = some v := by
  unfold mark
  split
  · exact lookup_append_some h
  · exact h

/-- Applying `markAll` never changes an existing timestamp entry. -/
theorem lookup_markAll_some {ts : List (String × String)} {k v : String}
    (now : String) (ctx : IssueContext) (h : ts.lookup k = some v) :
    (markAll now ctx ts).lookup k = some v := by
  unfold markAll
  exact lookup_mark_some _ _ _ (lookup_mark_some _ _ _ (lookup_mark_some _ _ _
    (lookup_mark_some _ _ _ (lookup_mark_some _ _ _ (lookup_mark_some _ _ _ h)))))

theorem max_state_eq_or (a b : String) : max_state a b = a ∨ max_state a b = b := by
  unfold max_state
  split
  · exact Or.inl rfl
  · exact Or.inr rfl

theorem max_state_ne_empty {a b : String} (ha : a ≠ "") (hb : b ≠ "") :
    max_state a b ≠ "" := by
  rcases max_state_eq_or a b with h | h <;> rw [h] <;> assumption

theorem stateOf_ne_empty (r : StateRecord) : stateOf r ≠ "" := by
  unfold stateOf
  cases r.state with
  | none => decide
  | some s =>
    rcases eq_or_ne s "" with h | h
    · subst h; decide
    · simp [h]

theorem foldStep_fst_ne_empty {c : Bool} {t r : String} {acc : String × List String}
    (h : acc.1 ≠ "") (ht : t ≠ "") : (foldStep c t r acc).1 ≠ "" := by
  cases c
  · simpa [foldStep] using h
  · simp only [foldStep, if_pos]
    exact max_state_ne_empty h ht

theorem foldStep2_fst_ne_empty {c : Bool} {t1 t2 r : String} {acc : String × List String}
    (h : acc.1 ≠ "") (h1 : t1 ≠ "") (h2 : t2 ≠ "") : (foldStep2 c t1 t2 r acc).1 ≠ "" := by
  cases c
  · simpa [foldStep2] using h
  · simp only [foldStep2, if_pos]
    exact max_state_ne_empty (max_state_ne_empty h h1) h2

theorem observedFold_fst_ne_empty (ctx : IssueContext) : (observedFold ctx).1 ≠ "" := by
  simp only [observedFold]
  refine foldStep_fst_ne_empty
    (foldStep2_fst_ne_empty
      (foldStep2_fst_ne_empty
        (foldStep_fst_ne_empty
          (foldStep_fst_ne_empty
            (foldStep_fst_ne_empty
              (foldStep_fst_ne_empty
                (foldStep_fst_ne_empty ?_ (by decide))
                (by decide))
              (by decide))
            (by decide))
          (by decide))
        (by decide) (by decide))
      (by decide) (by decide))
    (by decide)
  exact show ("new" : String) ≠ "" by decide

theorem closeFold_fst_ne_empty (ctx : IssueContext) (ps : String)
    {acc : String × List String} (h : acc.1 ≠ "") : (closeFold ctx ps acc).1 ≠ "" := by
  unfold closeFold
  split
  · split
    · exact max_state_ne_empty h (by decide)
    · exact max_state_ne_empty h (by decide)
  · exact h

theorem finalState_ne_empty (ctx : IssueContext) (prev : StateRecord) :
    finalState ctx prev ≠ "" := by
  unfold finalState
  exact max_state_ne_empty (stateOf_ne_empty prev)
    (closeFold_fst_ne_empty ctx _ (observedFold_fst_ne_empty ctx))

/-- The state the next run will read from a record `compute_state` produced
is exactly `finalState`. -/
theorem stateOf_compute_state (ctx : IssueContext) (prev : StateRecord) (now : String) :
    stateOf (compute_state ctx prev now) = finalState ctx prev := by
  have h := finalState_ne_empty ctx prev
  simp [stateOf, compute_state, h]

/-- One run never lowers the persisted lattice rank. -/
theorem step_rank_mono (ctx : IssueContext) (prev : StateRecord) (now : String) :
    state_rank (stateOf prev) ≤ state_rank (stateOf (compute_state ctx prev now)) := by
  rw [stateOf_compute_state]
  unfold finalState
  rw [rank_max_state]
  omega

/-- The reasons list of a record produced by `compute_state`, unfolded. -/
theorem reasons_compute_state (ctx : IssueContext) (prev : StateRecord) (now : String) :
    (compute_state ctx prev now).reasons
      = sortedSet ((resolveService ctx prev).2 ++ (observedClose ctx prev).2) := rfl

/-- Membership of the two-factor reason tag in the final reasons set is
exactly the two-factor authorization. -/
theorem pv_reason_mem_reasons (ctx : IssueContext) (prev : StateRecord) (now : String) :
    ("observed_payment_verified_two_factor" ∈ (compute_state ctx prev now).reasons)
      ↔ verify_authorized ctx = true := by
  rw [reasons_compute_state, mem_sortedSet, List.mem_append]
  have hs := pv_reason_not_mem_resolveService ctx prev
  simp only [observedClose]
  rw [pv_reason_mem_closeFold, pv_reason_mem_observedFold]
  simp [hs]

/-- Fold steps preserve already-recorded reasons. -/
theorem mem_foldStep_snd_of_mem {x : String} {c : Bool} {t r : String}
    {acc : String × List String} (h : x ∈ acc.2) : x ∈ (foldStep c t r acc).2 :=
  mem_foldStep_snd.mpr (Or.inl h)

/-- Close handling preserves already-recorded reasons. -/
theorem mem_closeFold_of_mem {x : String} (ctx : IssueContext) (ps : String)
    {acc : String × List String} (h : x ∈ acc.2) : x ∈ (closeFold ctx ps acc).2 := by
  unfold closeFold
  split
  · split <;> simp [h]
  · exact h

/-- A truthy verify intent requires a truthy comment. -/
theorem hasComment_of_verifyIntent {ctx : IssueContext}
    (h : verifyIntentOf ctx = true) : hasComment ctx = true := by
  unfold verifyIntentOf intentsOf at h
  unfold hasComment
  cases hc : ctx.comment with
  | none => rw [hc] at h; simp at h
  | some c =>
    rw [hc] at h
    by_cases hb : c = ""
    · subst hb
      simp at h
    · simp [hb]

/-- When the comment is truthy, `comment_detected` is among the observation
reasons. -/
theorem cd_mem_observedFold (ctx : IssueContext) (h : hasComment ctx = true) :
    "comment_detected" ∈ (observedFold ctx).2 := by
  simp only [observedFold]
  refine mem_foldStep_snd_of_mem (mem_foldStep2_snd.mpr (Or.inl
    (mem_foldStep2_snd.mpr (Or.inl (mem_foldStep_snd_of_mem (mem_foldStep_snd_of_mem
      (mem_foldStep_snd_of_mem (mem_foldStep_snd_of_mem (mem_foldStep_snd_of_mem ?_)))))))))
  simp [h]

/-! ## Claim theorems -/

/-- C1 (amended): Two-factor payment-verification gate — the verification
step of `compute_state` folds in `payment_verified` and `deliverables_ready`
(recording `observed_payment_verified_two_factor`) if and only if all three
factors hold: verify intent, authorized association, and the
`verify-payment` label.  When at least one factor is missing, then absent any
`deliverables-pushed` label on the event AND provided the source item is not
reported closed, the final state's rank never exceeds
`max(rank(previous state), rank(verify_payment))`.  (The original claim
omitted the closed-item proviso: the close handling can fold in a terminal
state ranking above `verify_payment`, see the counterexample.) -/
theorem c1_two_factor_gate (ctx : IssueContext) (prev : StateRecord) (now : String) :
    (("observed_payment_verified_two_factor" ∈ (compute_state ctx prev now).reasons)
      ↔ (verifyIntentOf ctx = true ∧ is_authorized_assoc ctx.assoc = true
          ∧ ctx.labels.contains "verify-payment" = true))
    ∧ (verify_authorized ctx = false →
        ctx.labels.contains "deliverables-pushed" = false →
        (toLowerStr ctx.state == "closed") = false →
        state_rank (stateOf (compute_state ctx prev now))
          ≤ max (state_rank (stateOf prev)) (state_rank "verify_payment")) := by
  constructor
  · rw [pv_reason_mem_reasons]
    simp [verify_authorized, Bool.and_eq_true, and_assoc]
  · intro hva hdp hcl
    rw [stateOf_compute_state]
    unfold finalState
    rw [rank_max_state]
    have hobs : (observedClose ctx prev).1 = (observedFold ctx).1 := by
      unfold observedClose closeFold
      rw [if_neg (by simp [hcl])]
    rw [hobs]
    have h7 := observedFold_rank_le_seven ctx hva hdp
    have hvp : state_rank "verify_payment" = 7 := rfl
    omega

/-- Event for the C1 witness: verify intent present, but unauthorized
association and no `verify-payment` label; item open. -/
def ctxW1 : IssueContext :=
  { number := 21, author := "frank", title := "t", url := "", state := "open",
    labels := ["payment-claimed", "stegops"], body := "",
    comment := some "verify payment", assoc := some "CONTRIBUTOR" }

/-- Previous record for the C1 witness. -/
def prevW1 : StateRecord :=
  { emptyRecord with state := some "invoice_generated" }

/-- C1 witness: the rank bound of the gate at a concrete unauthorized verify
event. -/
theorem c1_two_factor_gate_witness :
    state_rank (stateOf (compute_state ctxW1 prevW1 "2026-01-09T00:00:00Z"))
      ≤ max (state_rank (stateOf prevW1)) (state_rank "verify_payment") :=
  (c1_two_factor_gate ctxW1 prevW1 "2026-01-09T00:00:00Z").2
    (by decide) (by decide) (by decide)

/-- Event for the C1 counterexample: verify intent only (one factor), item
reported closed, no `deliverables-pushed` label. -/
def ctxC1 : IssueContext :=
  { number := 7, author := "mallory", title := "t", url := "", state := "closed",
    labels := ["stegops"], body := "",
    comment := some "verify payment", assoc := some "NONE" }

/-- Previous record for the C1 counterexample: a fresh engagement. -/
def prevC1 : StateRecord := { emptyRecord with state := some "new" }

/-- C1 counterexample: with only the verify-intent factor present (trust and
label missing) and no `deliverables-pushed` label, a closed event still drives
the final state to `closed_no_response`, whose rank (11) exceeds
`max(rank(new), rank(verify_payment)) = 7` — refuting the claim's unqualified
rank bound. -/
theorem c1_counterexample :
    verifyIntentOf ctxC1 = true
    ∧ is_authorized_assoc ctxC1.assoc = false
    ∧ ctxC1.labels.contains "verify-payment" = false
    ∧ ctxC1.labels.contains "deliverables-pushed" = false
    ∧ stateOf (compute_state ctxC1 prevC1 "2026-01-10T00:00:00Z") = "closed_no_response"
    ∧ max (state_rank (stateOf prevC1)) (state_rank "verify_payment")
        < state_rank (stateOf (compute_state ctxC1 prevC1 "2026-01-10T00:00:00Z")) := by
  decide

/-- C3 (amended): Unauthorized verify attempts do not advance state, and no
security-relevant reason is recorded — for every event carrying the
verify-payment intent whose trust or label factor is missing (item open, no
deliverables-pushed label) applied to a previous state `verify_payment`, the
state stays `verify_payment`, the reasons contain the generic
`comment_detected` tag, and do NOT contain the two-factor verification tag
(nor any dedicated security-audit tag — the engine records none, see the
counterexample). -/
theorem c3_unauthorized_verify_no_advance (ctx : IssueContext) (prev : StateRecord)
    (now : String)
    (hvi : verifyIntentOf ctx = true)
    (hva : verify_authorized ctx = false)
    (hcl : (toLowerStr ctx.state == "closed") = false)
    (hdp : ctx.labels.contains "deliverables-pushed" = false)
    (hps : stateOf prev = "verify_payment") :
    stateOf (compute_state ctx prev now) = "verify_payment"
    ∧ "comment_detected" ∈ (compute_state ctx prev now).reasons
    ∧ "observed_payment_verified_two_factor" ∉ (compute_state ctx prev now).reasons := by
  refine ⟨?_, ?_, ?_⟩
  · rw [stateOf_compute_state]
    unfold finalState
    have hobs : (observedClose ctx prev).1 = (observedFold ctx).1 := by
      unfold observedClose closeFold
      rw [if_neg (by simp [hcl])]
    rw [hobs, hps]
    refine max_state_left ?_
    have h7 := observedFold_rank_le_seven ctx hva hdp
    have hvp : state_rank "verify_payment" = 7 := rfl
    omega
  · rw [reasons_compute_state, mem_sortedSet, List.mem_append]
    right
    simp only [observedClose]
    exact mem_closeFold_of_mem ctx _
      (cd_mem_observedFold ctx (hasComment_of_verifyIntent hvi))
  · rw [pv_reason_mem_reasons]
    simp [hva]

/-- Event for the C3 witness/counterexample: `verify payment` comment from a
non-collaborator, no `verify-payment` label, item open. -/
def ctxC3 : IssueContext :=
  { number := 4, author := "mallory", title := "t", url := "", state := "open",
    labels := ["stegops"], body := "",
    comment := some "verify payment", assoc := some "NONE" }

/-- The same event with an innocuous comment, for comparison of audit trails. -/
def ctxC3benign : IssueContext :=
  { number := 4, author := "mallory", title := "t", url := "", state := "open",
    labels := ["stegops"], body := "",
    comment := some "checking in", assoc := some "NONE" }

/-- Previous record for C3: pending verification. -/
def prevC3 : StateRecord := { emptyRecord with state := some "verify_payment" }

/-- C3 witness: the amended theorem at the concrete unauthorized verify
event. -/
theorem c3_unauthorized_verify_no_advance_witness :
    stateOf (compute_state ctxC3 prevC3 "2026-01-11T00:00:00Z") = "verify_payment"
    ∧ "comment_detected" ∈ (compute_state ctxC3 prevC3 "2026-01-11T00:00:00Z").reasons
    ∧ "observed_payment_verified_two_factor"
        ∉ (compute_state ctxC3 prevC3 "2026-01-11T00:00:00Z").reasons :=
  c3_unauthorized_verify_no_advance ctxC3 prevC3 "2026-01-11T00:00:00Z"
    (by decide) (by decide) (by decide) (by decide) (by decide)

/-- C3 counterexample: the unauthorized verify attempt leaves state unchanged
(as claimed), but its recorded reasons are exactly
`["comment_detected", "observed_replied"]` — identical to the trail of an
innocuous comment from the same actor — so no security-relevant reason tag is
recorded, refuting the claim's audit-trail half. -/
theorem c3_counterexample :
    verifyIntentOf ctxC3 = true
    ∧ verify_authorized ctxC3 = false
    ∧ stateOf (compute_state ctxC3 prevC3 "2026-01-12T00:00:00Z") = "verify_payment"
    ∧ (compute_state ctxC3 prevC3 "2026-01-12T00:00:00Z").reasons
        = ["comment_detected", "observed_replied"]
    ∧ verifyIntentOf ctxC3benign = false
    ∧ (compute_state ctxC3benign prevC3 "2026-01-12T00:00:00Z").reasons
        = ["comment_detected", "observed_replied"] := by
  decide

/-- C2: Monotonicity — for every event and previous state, the rank of the
state computed by `compute_state` is at least the rank of the previous state
(the final state is `max_state prev_state observed`); consequently, over any
sequence of events applied to the same engagement, the persisted state's
lattice rank is non-decreasing. -/
theorem c2_monotonicity :
    (∀ (ctx : IssueContext) (prev : StateRecord) (now : String),
        state_rank (stateOf prev) ≤ state_rank (stateOf (compute_state ctx prev now)))
    ∧ ∀ (evs : List (IssueContext × String)) (prev : StateRecord),
        state_rank (stateOf prev) ≤ state_rank (stateOf (runEngine prev evs)) := by
  refine ⟨step_rank_mono, ?_⟩
  intro evs
  induction evs with
  | nil =>
    intro prev
    simp [runEngine]
  | cons e rest ih =>
    intro prev
    obtain ⟨ctx, now⟩ := e
    exact le_trans (step_rank_mono ctx prev now) (ih (compute_state ctx prev now))

/-- C6: Write-once milestone timestamps — if `timestamps[k]` is set in the
previous record, any subsequent run returns the same value for `k`, whatever
the event's labels, comment or intents (`mark` only fills absent keys). -/
theorem c6_write_once_timestamps (ctx : IssueContext) (prev : StateRecord)
    (now k v : String) (h : prev.timestamps.lookup k = some v) :
    (compute_state ctx prev now).timestamps.lookup k = some v :=
  lookup_markAll_some now ctx h

/-- Previous record for the C6 witness: `qualified` milestone already set. -/
def prevW6 : StateRecord :=
  { emptyRecord with
    timestamps := [("qualified", "2026-01-05T00:00:00Z")]
    state := some "qualified" }

/-- Event for the C6 witness: re-observes `qualified` (label and affirmative
comment) on a later day. -/
def ctxW6 : IssueContext :=
  { number := 3, author := "dana", title := "Audit request", url := "",
    state := "open", labels := ["qualified", "stegops"], body := "",
    comment := some "yes please", assoc := some "NONE" }

/-- C6 witness: a later run that re-observes the `qualified` milestone leaves
its first-recorded timestamp unchanged. -/
theorem c6_write_once_timestamps_witness :
    (compute_state ctxW6 prevW6 "2026-01-06T12:00:00Z").timestamps.lookup "qualified"
      = some "2026-01-05T00:00:00Z" :=
  c6_write_once_timestamps ctxW6 prevW6 "2026-01-06T12:00:00Z" "qualified"
    "2026-01-05T00:00:00Z" (by decide)

/-- C7 (amended): `compute_state` overwrites `customer` with the event's
issue author on every run (latest-snapshot semantics, like `title`/`url`);
the field is not set-once. -/
theorem c7_customer_latest_snapshot (ctx : IssueContext) (prev : StateRecord)
    (now : String) :
    (compute_state ctx prev now).customer = some ctx.author := rfl

/-- Event for the C7 counterexample: a later event whose issue author differs
from the stored customer. -/
def ctxC7 : IssueContext :=
  { number := 2, author := "bob", title := "t", url := "", state := "open",
    labels := ["stegops"], body := "", comment := none, assoc := none }

/-- Previous record for the C7 counterexample: customer already present. -/
def prevC7 : StateRecord :=
  { emptyRecord with customer := some "alice", state := some "replied" }

/-- C7 counterexample: with `customer = "alice"` already present, an event
authored by `"bob"` yields a record whose customer is `"bob"`, not the
previous value — refuting "a later event's actor never overwrites an existing
customer". -/
theorem c7_counterexample :
    prevC7.customer = some "alice"
    ∧ (compute_state ctxC7 prevC7 "2026-01-07T00:00:00Z").customer = some "bob"
    ∧ (compute_state ctxC7 prevC7 "2026-01-07T00:00:00Z").customer ≠ prevC7.customer := by
  refine ⟨rfl, rfl, ?_⟩
  decide

/-- A state ranking at the top of the lattice can only be `closed`. -/
theorem state_eq_closed_of_rank {s : String} (h : 12 ≤ state_rank s) : s = "closed" := by
  unfold state_rank at h
  split at h <;> first | omega | assumption | simp_all

/-- Folding `closed` into any observed state below it, then combining with any
previous state, yields `closed`. -/
theorem max_state_closed_absorb (ps obs : String) (h : state_rank obs ≤ 10) :
    max_state ps (max_state obs "closed") = "closed" := by
  have h12 : state_rank "closed" = 12 := rfl
  rw [max_state_right (a := obs) (by omega)]
  unfold max_state
  split
  · next hle => exact state_eq_closed_of_rank (by omega)
  · rfl

/-- Folding `closed_no_response` when both previous and observed rank at or
below `qualified` yields `closed_no_response`. -/
theorem max_state_cnr_absorb (ps obs : String)
    (h1 : state_rank ps ≤ 2) (h2 : state_rank obs ≤ 2) :
    max_state ps (max_state obs "closed_no_response") = "closed_no_response" := by
  have h11 : state_rank "closed_no_response" = 11 := rfl
  rw [max_state_right (a := obs) (by omega)]
  exact max_state_right (by omega)

/-- C8 (amended): Closing rule — when the source item is reported closed, the
engine folds in `closed_no_response` iff BOTH the previous state's rank AND
the rank observed from the current event are at or below `qualified`; in
every other case it folds in `closed`.  (The original claim made the choice
depend only on the observed rank; the code also consults the previous state's
rank, see the counterexample.)  In particular, closing while still at
`replied` with no advancing facts yields `closed_no_response`, and closing
after `accepted` yields `closed`. -/
theorem c8_closing_rule (ctx : IssueContext) (prev : StateRecord) (now : String)
    (hcl : (toLowerStr ctx.state == "closed") = true) :
    ((state_rank (stateOf prev) ≤ state_rank "qualified"
        ∧ state_rank (observedFold ctx).1 ≤ state_rank "qualified") →
      stateOf (compute_state ctx prev now) = "closed_no_response")
    ∧ (¬(state_rank (stateOf prev) ≤ state_rank "qualified"
        ∧ state_rank (observedFold ctx).1 ≤ state_rank "qualified") →
      stateOf (compute_state ctx prev now) = "closed") := by
  have hq : state_rank "qualified" = 2 := rfl
  constructor
  · rintro ⟨h1, h2⟩
    rw [stateOf_compute_state]
    unfold finalState observedClose closeFold
    have hcond : (decide (state_rank (stateOf prev) ≤ state_rank "qualified")
        && decide (state_rank (observedFold ctx).1 ≤ state_rank "qualified")) = true := by
      simp only [Bool.and_eq_true, decide_eq_true_eq]
      exact ⟨h1, h2⟩
    rw [if_pos hcl, if_pos hcond]
    exact max_state_cnr_absorb _ _ (by omega) (by omega)
  · intro h
    rw [stateOf_compute_state]
    unfold finalState observedClose closeFold
    have hcond : (decide (state_rank (stateOf prev) ≤ state_rank "qualified")
        && decide (state_rank (observedFold ctx).1 ≤ state_rank "qualified")) = false := by
      cases hb : (decide (state_rank (stateOf prev) ≤ state_rank "qualified")
          && decide (state_rank (observedFold ctx).1 ≤ state_rank "qualified"))
      · rfl
      · exfalso
        apply h
        simpa [Bool.and_eq_true, decide_eq_true_eq] using hb
    rw [if_pos hcl, if_neg (by simp [hcond])]
    exact max_state_closed_absorb _ _ (observedFold_rank_le_ten ctx)

/-- Event for the C8 witness: item closed, no advancing facts. -/
def ctxW8 : IssueContext :=
  { number := 31, author := "gail", title := "t", url := "", state := "closed",
    labels := ["stegops"], body := "", comment := none, assoc := none }

/-- Previous record for the C8 witness: engagement had reached `accepted`. -/
def prevW8 : StateRecord := { emptyRecord with state := some "accepted" }

/-- C8 witness: closing after `accepted` yields `closed`. -/
theorem c8_closing_rule_witness :
    stateOf (compute_state ctxW8 prevW8 "2026-01-13T00:00:00Z") = "closed" :=
  (c8_closing_rule ctxW8 prevW8 "2026-01-13T00:00:00Z" (by decide)).2 (by decide)

/-- Event for the C8 counterexample: item closed, event itself carries no
advancing fact (observed stays at `new`). -/
def ctxC8 : IssueContext :=
  { number := 32, author := "hans", title := "t", url := "", state := "closed",
    labels := ["stegops"], body := "", comment := none, assoc := none }

/-- Previous record for the C8 counterexample: previously at `accepted`. -/
def prevC8 : StateRecord := { emptyRecord with state := some "accepted" }

/-- C8 counterexample: the rank observed from the current event alone is `new`
(≤ `qualified`), so the claim's rule — which depends only on the observed
rank — dictates folding `closed_no_response`; the code instead consults the
previous state's rank (`accepted` > `qualified`) and folds `closed`: the
reasons contain `observed_closed`, not `observed_closed_no_response`, and the
final state is `closed`. -/
theorem c8_counterexample :
    state_rank (observedFold ctxC8).1 ≤ state_rank "qualified"
    ∧ stateOf (compute_state ctxC8 prevC8 "2026-01-14T00:00:00Z") = "closed"
    ∧ "observed_closed" ∈ (compute_state ctxC8 prevC8 "2026-01-14T00:00:00Z").reasons
    ∧ "observed_closed_no_response"
        ∉ (compute_state ctxC8 prevC8 "2026-01-14T00:00:00Z").reasons
    ∧ stateOf (compute_state ctxC8 prevC8 "2026-01-14T00:00:00Z")
        ≠ "closed_no_response" := by
  decide

/-- C10: Service-label tie-break — when an event carries both the `monthly`
and the `audit` label, the resolved service is `audit` (the audit check runs
after the monthly check), regardless of the stored service or body inference,
and the suggested amount is the one-time figure. -/
theorem c10_service_tie_break (ctx : IssueContext) (prev : StateRecord) (now : String)
    (_hm : ctx.labels.contains "monthly" = true)
    (ha : ctx.labels.contains "audit" = true) :
    (compute_state ctx prev now).service = some "audit"
    ∧ (compute_state ctx prev now).pricing_suggested = some "$2,500 USD" := by
  have ha2 : "audit" ∈ ctx.labels := by simpa using ha
  have hs : serviceOf ctx prev = "audit" := by
    unfold serviceOf resolveService
    simp [ha2]
  constructor
  · show some (serviceOf ctx prev) = some "audit"
    rw [hs]
  · show some (choose_amount_default (serviceOf ctx prev)) = some "$2,500 USD"
    rw [hs]
    rfl

/-- C4 (amended): Workspace-link determinism — for records produced by
`compute_state`, `private_workspace` is non-null iff the final state is
`deliverables_ready` or `deliverables_pushed`, and when non-null it is
exactly the fixed link for the record's own engagement id.  For records the
Output Validator accepts, the same nullity rule holds and a non-null link
matches the fixed shape with SOME numeric id — but the validator does not
check that the id embedded in the link equals the record's own engagement id
(see the counterexample). -/
theorem c4_workspace_link_determinism (ctx : IssueContext) (prev : StateRecord)
    (now : String) (n : Int) (d : StateRecord)
    (hacc : validate_state_json n d = true) :
    (((compute_state ctx prev now).private_workspace ≠ none)
      ↔ (stateOf (compute_state ctx prev now) = "deliverables_ready"
          ∨ stateOf (compute_state ctx prev now) = "deliverables_pushed"))
    ∧ (∀ u, (compute_state ctx prev now).private_workspace = some u →
        u = workspace_url ctx.number
          ∧ (compute_state ctx prev now).issue = some ctx.number)
    ∧ ((d.private_workspace ≠ none)
      ↔ (d.state.getD "" = "deliverables_ready"
          ∨ d.state.getD "" = "deliverables_pushed"))
    ∧ (∀ u, d.private_workspace = some u → matchWorkspaceUrl (trimStr u) = true) := by
  have hpw : (compute_state ctx prev now).private_workspace
      = (if finalState ctx prev == "deliverables_ready"
            || finalState ctx prev == "deliverables_pushed"
         then some (workspace_url ctx.number) else none) := rfl
  have hws : (if (d.state.getD "") == "deliverables_ready"
        || (d.state.getD "") == "deliverables_pushed" then
      (match d.private_workspace with
       | some pw => matchWorkspaceUrl (trimStr pw)
       | none => false)
    else d.private_workspace == none) = true := by
    simp only [validate_state_json, Bool.and_eq_true] at hacc
    tauto
  refine ⟨?_, ?_, ?_, ?_⟩
  · rw [hpw, stateOf_compute_state]
    by_cases h1 : finalState ctx prev = "deliverables_ready"
    · rw [if_pos (by simp [h1])]
      simp [h1]
    · by_cases h2 : finalState ctx prev = "deliverables_pushed"
      · rw [if_pos (by simp [h2])]
        simp [h2]
      · rw [if_neg (by simp [h1, h2])]
        simp [h1, h2]
  · intro u hu
    rw [hpw] at hu
    by_cases hb : (finalState ctx prev == "deliverables_ready"
        || finalState ctx prev == "deliverables_pushed") = true
    · rw [if_pos hb] at hu
      exact ⟨(Option.some.inj hu).symm, rfl⟩
    · rw [if_neg hb] at hu
      exact absurd hu (by simp)
  · by_cases hc : ((d.state.getD "") == "deliverables_ready"
        || (d.state.getD "") == "deliverables_pushed") = true
    · rw [if_pos hc] at hws
      have hcp : d.state.getD "" = "deliverables_ready"
          ∨ d.state.getD "" = "deliverables_pushed" := by simpa using hc
      cases hpw2 : d.private_workspace with
      | none => rw [hpw2] at hws; simp at hws
      | some pw => exact ⟨fun _ => hcp, fun _ => by simp⟩
    · rw [if_neg hc] at hws
      have hnone : d.private_workspace = none := by simpa using hws
      have hcp : ¬(d.state.getD "" = "deliverables_ready"
          ∨ d.state.getD "" = "deliverables_pushed") := by simpa using hc
      rw [hnone]
      exact ⟨fun hx => absurd rfl hx, fun hx => absurd hx hcp⟩
  · intro u hu
    by_cases hc : ((d.state.getD "") == "deliverables_ready"
        || (d.state.getD "") == "deliverables_pushed") = true
    · rw [if_pos hc, hu] at hws
      exact hws
    · rw [if_neg hc, hu] at hws
      simp at hws

/-- Event for the C4 witness: the authorized Scenario-D event. -/
def ctxW4 : IssueContext :=
  { number := 9, author := "alice", title := "Order", url := "",
    state := "open", labels := ["stegops", "verify-payment"], body := "",
    comment := some "verify payment", assoc := some "OWNER" }

/-- A well-formed persisted record for the C4 witness (its own issue id in
the workspace link). -/
def recW4 : StateRecord :=
  { schema_version := some 1, issue := some 9, customer := some "alice",
    issue_url := some "https://github.com/StegVerse-Labs/StegOps-Orchestrator/issues/9",
    issue_title := some "Order", service := some "audit",
    labels := ["stegops", "verify-payment"], state := some "deliverables_ready",
    updated_utc := some "2026-01-15T00:00:00Z",
    timestamps := [("payment_verified", "2026-01-15T00:00:00Z")],
    pricing_suggested := some "$2,500 USD",
    private_workspace :=
      some "https://github.com/StegVerse-Labs/StegOps-Deliverables/tree/main/clients/issue-9",
    reasons := ["observed_payment_verified_two_factor"] }

/-- C4 witness: the amended determinism facts at a concrete run and a
concrete validator-accepted record. -/
theorem c4_workspace_link_determinism_witness :
    (((compute_state ctxW4 emptyRecord "2026-01-15T00:00:00Z").private_workspace ≠ none)
      ↔ (stateOf (compute_state ctxW4 emptyRecord "2026-01-15T00:00:00Z")
            = "deliverables_ready"
          ∨ stateOf (compute_state ctxW4 emptyRecord "2026-01-15T00:00:00Z")
            = "deliverables_pushed"))
    ∧ (∀ u, (compute_state ctxW4 emptyRecord "2026-01-15T00:00:00Z").private_workspace
          = some u →
        u = workspace_url ctxW4.number
          ∧ (compute_state ctxW4 emptyRecord "2026-01-15T00:00:00Z").issue
              = some ctxW4.number)
    ∧ ((recW4.private_workspace ≠ none)
      ↔ (recW4.state.getD "" = "deliverables_ready"
          ∨ recW4.state.getD "" = "deliverables_pushed"))
    ∧ (∀ u, recW4.private_workspace = some u
          → matchWorkspaceUrl (trimStr u) = true) :=
  c4_workspace_link_determinism ctxW4 emptyRecord "2026-01-15T00:00:00Z" 9 recW4 (by decide)

/-- A record for issue 5 whose workspace link embeds a FOREIGN issue id (7). -/
def recC4 : StateRecord :=
  { schema_version := some 1, issue := some 5, customer := some "alice",
    issue_url := some "https://github.com/StegVerse-Labs/StegOps-Orchestrator/issues/5",
    issue_title := some "t", service := some "audit",
    labels := ["stegops", "verify-payment"], state := some "deliverables_ready",
    updated_utc := some "2026-01-15T00:00:00Z",
    timestamps := [("payment_verified", "2026-01-15T00:00:00Z")],
    pricing_suggested := some "$2,500 USD",
    private_workspace :=
      some "https://github.com/StegVerse-Labs/StegOps-Deliverables/tree/main/clients/issue-7",
    reasons := ["observed_payment_verified_two_factor"] }

/-- C4 counterexample: the Output Validator accepts a record for engagement 5
whose `private_workspace` names `issue-7` — its `WORKSPACE_RE` only checks the
generic `issue-\d+` shape, not the record's own engagement id, refuting the
claim that every accepted record's link is the one for its own id. -/
theorem c4_counterexample :
    validate_state_json 5 recC4 = true
    ∧ recC4.issue = some 5
    ∧ recC4.state = some "deliverables_ready"
    ∧ recC4.private_workspace
        = some "https://github.com/StegVerse-Labs/StegOps-Deliverables/tree/main/clients/issue-7"
    ∧ "https://github.com/StegVerse-Labs/StegOps-Deliverables/tree/main/clients/issue-7"
        ≠ workspace_url 5 := by
  decide

/-- Event for C5: the authorized verification event of Scenario D/F. -/
def ctxC5 : IssueContext :=
  { number := 14, author := "ivy", title := "Order", url := "",
    state := "open", labels := ["stegops", "verify-payment"], body := "",
    comment := some "verify payment", assoc := some "OWNER" }

/-- The record persisted by the first run of the C5 event. -/
def r1C5 : StateRecord := compute_state ctxC5 emptyRecord "2026-03-01T09:00:00Z"

/-- The record computed by re-running the exact same event seven seconds
later against the persisted record. -/
def r2C5 : StateRecord := compute_state ctxC5 r1C5 "2026-03-01T09:00:07Z"

/-- C5 (code bug): re-running the exact same event with no intervening event
produces a record that differs from the persisted one — solely in
`updated_utc`, which `compute_state` refreshes every run and which is part of
the canonically hashed object — so the hash comparison fails and `main`
rewrites the files, contrary to the claimed (and intended, per the engine's
own "idempotent writes to avoid noisy commits" doc) no-op.  The milestone
`timestamps`, `state` and `reasons` are indeed unchanged, and a re-run within
the same clock second really is a no-op. -/
theorem c5_rerun_not_idempotent :
    writes_files r1C5 r2C5 = true
    ∧ r2C5.updated_utc = some "2026-03-01T09:00:07Z"
    ∧ r1C5.updated_utc = some "2026-03-01T09:00:00Z"
    ∧ r2C5.timestamps = r1C5.timestamps
    ∧ r2C5.state = r1C5.state
    ∧ r2C5.reasons = r1C5.reasons
    ∧ r2C5.labels = r1C5.labels
    ∧ writes_files r1C5 (compute_state ctxC5 r1C5 "2026-03-01T09:00:00Z") = false := by
  decide

/-- Event for C9: Scenario D — all three verification factors present. -/
def ctxC9 : IssueContext :=
  { number := 17, author := "jane", title := "Order", url := "",
    state := "open", labels := ["stegops", "verify-payment"], body := "",
    comment := some "verify payment", assoc := some "OWNER" }

/-- C9 (code bug): a fully authorized verification run reaches
`deliverables_ready` and stamps `payment_verified`, but records NO
`deliverables_ready` timestamp — `compute_state`'s `mark` calls
(state_engine.py:265-270) have no entry for that milestone, contrary to the
claim (and to the sibling engine variant `script/state_engine.py`, which does
`mark("deliverables_ready", ...)`). -/
theorem c9_deliverables_ready_timestamp_missing :
    verify_authorized ctxC9 = true
    ∧ stateOf (compute_state ctxC9 emptyRecord "2026-01-16T00:00:00Z")
        = "deliverables_ready"
    ∧ (compute_state ctxC9 emptyRecord "2026-01-16T00:00:00Z").timestamps.lookup
        "payment_verified" = some "2026-01-16T00:00:00Z"
    ∧ (compute_state ctxC9 emptyRecord "2026-01-16T00:00:00Z").timestamps.lookup
        "deliverables_ready" = none
    ∧ emptyRecord.timestamps.lookup "payment_verified" = none
    ∧ emptyRecord.timestamps.lookup "deliverables_ready" = none := by
  decide

/-- Event for the C10 witness: both service labels present, body and stored
service pointing at `monthly`. -/
def ctxW10 : IssueContext :=
  { number := 11, author := "erin", title := "t", url := "", state := "open",
    labels := ["audit", "monthly", "stegops"], body := "monthly ops support please",
    comment := none, assoc := none }

/-- Previous record for the C10 witness: stored service is `monthly`. -/
def prevW10 : StateRecord :=
  { emptyRecord with service := some "monthly", state := some "new" }

/-- C10 witness: with both labels present (and `monthly` stored and inferred
from the body), the run resolves `audit` and the one-time amount. -/
theorem c10_service_tie_break_witness :
    (compute_state ctxW10 prevW10 "2026-01-08T00:00:00Z").service = some "audit"
    ∧ (compute_state ctxW10 prevW10 "2026-01-08T00:00:00Z").pricing_suggested
        = some "$2,500 USD" :=
  c10_service_tie_break ctxW10 prevW10 "2026-01-08T00:00:00Z" (by decide) (by decide)

end StegOps
